import Mathlib

/-!
Shallow embedding of `src/NOAADataRequest.py`: the NOAA climate-data client
consisting of the page fetcher `NOAADataRequest.request_result_page`, the
response parser `NOAADataRequest.parse_response`, and the date-chunked
pagination orchestrator `get_station_summary`.

Modelling conventions:
- records returned by the server are opaque to the code, so they are a type
  parameter `α`;
- calendar dates are modelled as integers (day numbers) and `delta` as an
  integer day count, since the code only ever forms `d + delta` and
  `d + delta - 1 day`;
- the HTTP transport is a function from the assembled request to a response
  (status code plus parsed JSON body); JSON bodies are modelled by the record
  structure of the only fields the code reads;
- Python `None` becomes `Option.none`; Python truthiness of the optional
  arguments is modelled explicitly (`0`, `""` and `None` are falsy);
- the `while` loops of `get_station_summary` take a fuel argument because the
  inner loop need not terminate; running out of fuel yields `Outcome.spin`,
  a raised exception (`ZeroDivisionError` in `math.ceil`) yields
  `Outcome.exn`.
-/

/-- The `metadata.resultset` object of a NOAA JSON response: the three fields
`parse_response` reads, each possibly absent. -/
structure Resultset where
  count : Option Nat
  limit : Option Nat
  offset : Option Nat
deriving DecidableEq

/-- The `metadata` object of a NOAA JSON response. -/
structure Metadata where
  resultset : Option Resultset
deriving DecidableEq

/-- A parsed JSON response body: the code reads only `metadata.resultset` and
the top-level `results` array (records of type `α`). -/
structure RequestData (α : Type) where
  metadata : Option Metadata
  results : Option (List α)
deriving DecidableEq

/-- The mutable attributes of a `NOAADataRequest` object that the paging logic
uses: `_RECORD_COUNT`, `_RECORDS_PER_PAGE`, `_CURRENT_PAGE`, `_PAGES`
(initialised to `None`) and the `_RESULTS` accumulator. -/
structure NOAAState (α : Type) where
  record_count : Option Nat
  records_per_page : Option Nat
  current_page : Option Nat
  pages : Option Nat
  results : List α
deriving DecidableEq

/-- The freshly constructed `NOAADataRequest` object: all page attributes
`None`, `_RESULTS = []`. -/
def initState {α : Type} : NOAAState α :=
  ⟨none, none, none, none, []⟩

/-- `request_data.get('metadata', {}).get('resultset', {})`: the effective
resultset after the two dictionary defaults. -/
def effResultset {α : Type} (rd : RequestData α) : Resultset :=
  ((rd.metadata.getD ⟨none⟩).resultset).getD ⟨none, none, none⟩

/-- `NOAADataRequest.parse_response` (src lines 42-70).  Sets
`_RECORD_COUNT`, `_RECORDS_PER_PAGE`, `_CURRENT_PAGE` from
`metadata.resultset` with default `0`, computes `_PAGES = 0` when the count
is `0` and `math.ceil(count / limit)` otherwise, and extends `_RESULTS` with
the `results` array (default `[]`).  When the count is positive and the
limit is `0` (absent), Python's `math.ceil(count / 0)` raises
`ZeroDivisionError`, modelled as `Except.error ()`.  For positive naturals
`math.ceil(count / limit) = (count + limit - 1) / limit` exactly. -/
def parse_response {α : Type} (st : NOAAState α) (rd : RequestData α) :
    Except Unit (NOAAState α) :=
  let md := effResultset rd
  let rc := md.count.getD 0
  let rpp := md.limit.getD 0
  let cp := md.offset.getD 0
  if rc = 0 then
    Except.ok ⟨some rc, some rpp, some cp, some 0, st.results ++ rd.results.getD []⟩
  else if rpp = 0 then
    Except.error ()
  else
    Except.ok ⟨some rc, some rpp, some cp, some ((rc + rpp - 1) / rpp),
      st.results ++ rd.results.getD []⟩

/-- A query-parameter value: the code sends strings, small integers
(`limit`, `offset`) and stringified dates. -/
inductive PVal where
  | str (s : String)
  | num (n : Nat)
  | date (d : Int)
deriving DecidableEq

/-- An assembled HTTP GET request: the final URL and the query parameters in
insertion order (the Python dict keys are pairwise distinct). -/
structure Request where
  url : String
  params : List (String × PVal)
deriving DecidableEq

/-- Python truthiness of an optional string argument (`None` and `""` are
falsy). -/
def truthyStr : Option String → Bool
  | none => false
  | some s => s != ""

/-- Python truthiness of an optional integer argument (`None` and `0` are
falsy). -/
def truthyNat : Option Nat → Bool
  | none => false
  | some n => n != 0

/-- Python truthiness of an optional date argument: a `datetime.date` (or
the nonempty string `str(date)`) is always truthy. -/
def truthyDate : Option Int → Bool
  | none => false
  | some _ => true

/-- One conditional `parameters.update({name: v})` step: the singleton when
the guard is truthy, nothing otherwise. -/
def condParam (name : String) (cond : Bool) (v : PVal) : List (String × PVal) :=
  if cond then [(name, v)] else []

/-- The request assembled by `request_result_page` (src lines 92-133): the
URL with the `default` suffix appended when truthy, the fixed `units` and
`limit` parameters, and each optional parameter added in the source's update
order exactly when its argument is truthy. -/
def buildRequest (url : String) (default : Option String)
    (start_date end_date : Option Int) (page : Option Nat)
    (data_set_id data_type_id location_id station_id
      location_category_id data_category_id : Option String) : Request :=
  ⟨(if truthyStr default then url ++ default.getD "" else url),
    [("units", PVal.str "standard"), ("limit", PVal.num 1000)]
    ++ condParam "datatypeid" (truthyStr data_type_id) (PVal.str (data_type_id.getD ""))
    ++ condParam "startdate" (truthyDate start_date) (PVal.date (start_date.getD 0))
    ++ condParam "enddate" (truthyDate end_date) (PVal.date (end_date.getD 0))
    ++ condParam "datasetid" (truthyStr data_set_id) (PVal.str (data_set_id.getD ""))
    ++ condParam "offset" (truthyNat page) (PVal.num (page.getD 0))
    ++ condParam "locationid" (truthyStr location_id) (PVal.str (location_id.getD ""))
    ++ condParam "stationid" (truthyStr station_id) (PVal.str (station_id.getD ""))
    ++ condParam "locationcategoryid" (truthyStr location_category_id)
        (PVal.str (location_category_id.getD ""))
    ++ condParam "datacategoryid" (truthyStr data_category_id)
        (PVal.str (data_category_id.getD ""))⟩

/-- Lookup of a query parameter by name in an assembled parameter list. -/
def lookupParam (name : String) : List (String × PVal) → Option PVal
  | [] => none
  | p :: ps => if p.1 = name then some p.2 else lookupParam name ps

/-- The value of the named query parameter of a request, if present. -/
def getParam (r : Request) (name : String) : Option PVal :=
  lookupParam name r.params

/-- Whether the named query parameter occurs in the issued request. -/
def hasParam (r : Request) (name : String) : Bool :=
  (lookupParam name r.params).isSome

/-- An HTTP response: status code and (for status 200) the parsed JSON body. -/
structure Response (α : Type) where
  status : Nat
  body : RequestData α
deriving DecidableEq

/-- The value `request_result_page` returns: the full parsed JSON body (the
`return data` branch) or a dictionary holding only the status code. -/
inductive RRPReturn (α : Type) where
  | data (d : RequestData α)
  | statusOnly (status : Nat)
deriving DecidableEq

/-- `NOAADataRequest.request_result_page` (src lines 72-144), with the HTTP
transport abstracted as a function `t` from the assembled request to the
response and the object's `_url` passed as `url`.  On status 200 the body is
parsed (mutating the object state; a `ZeroDivisionError` raised there
propagates) and the body itself is returned when `default` is truthy, else a
status-only dictionary; on any other status the body is not parsed, the
state is untouched and the status is returned as data. -/
def request_result_page {α : Type} (t : Request → Response α) (url : String)
    (st : NOAAState α) (default : Option String)
    (start_date end_date : Option Int) (page : Option Nat)
    (data_set_id data_type_id location_id station_id
      location_category_id data_category_id : Option String) :
    Except Unit (RRPReturn α × NOAAState α) :=
  let req := buildRequest url default start_date end_date page data_set_id
    data_type_id location_id station_id location_category_id data_category_id
  let resp := t req
  if resp.status = 200 then
    match parse_response st resp.body with
    | Except.error e => Except.error e
    | Except.ok st2 =>
      if truthyStr default then Except.ok (RRPReturn.data resp.body, st2)
      else Except.ok (RRPReturn.statusOnly resp.status, st2)
  else
    Except.ok (RRPReturn.statusOnly resp.status, st)

/-- The `data` endpoint URL set by `NOAA.set_api('data')` in
`get_station_summary`. -/
def dataUrl : String := "https://www.ncdc.noaa.gov/cdo-web/api/v2/data"

/-- The request issued by the pagination loop of `get_station_summary` for
the window `[ws, we]`, station `sid` and page number `pg`. -/
def pageReq (ws we : Int) (sid : String) (pg : Nat) : Request :=
  buildRequest dataUrl none (some ws) (some we) (some pg) (some "GHCND")
    none none (some sid) none none

/-- The result of running a (possibly non-terminating, possibly raising)
loop of `get_station_summary`: normal completion with the final object state
and the list of issued requests in issue order, a propagated exception, or
fuel exhaustion (the loop was still running). -/
inductive Outcome (α : Type) where
  | ok (st : NOAAState α) (reqs : List Request)
  | exn
  | spin
deriving DecidableEq

/-- The inner `while current_page < pages` pagination loop of
`get_station_summary` (src lines 163-186) for the window `[ws, we]`:
increment the local page counter, issue the page request, then re-read
`current_page` and `pages` from the object's attributes (stale when the
request failed, since a non-200 response is never parsed), breaking when
either is `None`.  `fuel` bounds the number of iterations still allowed. -/
def pageLoop {α : Type} (t : Request → Response α) (ws we : Int) (sid : String) :
    Nat → Nat → Nat → NOAAState α → Outcome α
  | 0, cp, pages, st => if cp < pages then Outcome.spin else Outcome.ok st []
  | fuel + 1, cp, pages, st =>
    if cp < pages then
      match request_result_page t dataUrl st none (some ws) (some we)
          (some (cp + 1)) (some "GHCND") none none (some sid) none none with
      | Except.error _ => Outcome.exn
      | Except.ok (_, st2) =>
        match st2.current_page, st2.pages with
        | some c, some p =>
          match pageLoop t ws we sid fuel c p st2 with
          | Outcome.ok st3 reqs => Outcome.ok st3 (pageReq ws we sid (cp + 1) :: reqs)
          | x => x
        | _, _ => Outcome.ok st2 [pageReq ws we sid (cp + 1)]
    else Outcome.ok st []

/-- The outer `while start_date <= end_date` loop of `get_station_summary`
(src lines 162-188): run the pagination loop on the window
`[s, s + d - 1]` (no clamping of the window end to `e`), then advance the
start by `delta`.  `wfuel` bounds the number of windows still allowed and
`pfuel` the number of page iterations per window. -/
def windowLoop {α : Type} (t : Request → Response α) (sid : String) (pfuel : Nat) :
    Nat → Int → Int → Int → NOAAState α → Outcome α
  | 0, s, e, _, st => if s ≤ e then Outcome.spin else Outcome.ok st []
  | wf + 1, s, e, d, st =>
    if s ≤ e then
      match pageLoop t s (s + d - 1) sid pfuel 0 1 st with
      | Outcome.ok st2 reqs =>
        match windowLoop t sid pfuel wf (s + d) e d st2 with
        | Outcome.ok st3 reqs2 => Outcome.ok st3 (reqs ++ reqs2)
        | x => x
      | x => x
    else Outcome.ok st []

/-- `get_station_summary` (src lines 147-191): construct a fresh
`NOAADataRequest`, point it at the `data` endpoint, and run the chunked
pagination loop; the returned dataframe is built from the final `_RESULTS`
list, held in the final state of the outcome. -/
def get_station_summary {α : Type} (t : Request → Response α) (sid : String)
    (start_date end_date delta : Int) (pfuel wfuel : Nat) : Outcome α :=
  windowLoop t sid pfuel wfuel start_date end_date delta initState

/-- The sequence of date windows walked by the outer loop of
`get_station_summary`: starting from `s`, the window `(s, s + d - 1)` is
issued while `s ≤ e`, and the start then advances by `d`. -/
def windowsList : Nat → Int → Int → Int → List (Int × Int)
  | 0, _, _, _ => []
  | wf + 1, s, e, d =>
    if s ≤ e then (s, s + d - 1) :: windowsList wf (s + d) e d else []

/-- The requests issued by a completed run. -/
def traceOf {α : Type} : Outcome α → List Request
  | Outcome.ok _ reqs => reqs
  | _ => []

/-- The accumulated `_RESULTS` of a completed run. -/
def resultsOf {α : Type} : Outcome α → List α
  | Outcome.ok st _ => st.results
  | _ => []

/-- The pagination loop terminates (for some fuel it does not merely run out
of fuel: it either completes or raises). -/
def pageTerminates {α : Type} (t : Request → Response α) (ws we : Int)
    (sid : String) (cp pages : Nat) (st : NOAAState α) : Prop :=
  ∃ fuel, pageLoop t ws we sid fuel cp pages st ≠ Outcome.spin

/-- The records contributed by each request of a trace, in trace order: a
request whose response has status 200 contributes its `results` array
(default `[]`), a failed request contributes nothing. -/
def respRecords {α : Type} (t : Request → Response α) : List Request → List α
  | [] => []
  | r :: rs =>
    (if (t r).status = 200 then (t r).body.results.getD [] else []) ++ respRecords t rs

/-- The page total `parse_response` stores on a successful parse, as a
function of the effective resultset: `0` when the effective count is `0`,
else `math.ceil(count / limit)`; the value is immaterial when the count is
positive and the limit zero, since that parse raises instead. -/
def pagesOfResultset (md : Resultset) : Nat :=
  if md.count.getD 0 = 0 then 0
  else if md.limit.getD 0 = 0 then 0
  else (md.count.getD 0 + md.limit.getD 0 - 1) / md.limit.getD 0

/-- The page total `parse_response` stores on a successful parse. -/
def modelPages {α : Type} (rd : RequestData α) : Nat :=
  pagesOfResultset (effResultset rd)

/-- A simulated transport for the record-conservation scenario: every
response succeeds with `record_count = 2500`, `limit = 1000`, echoes the
requested `offset` back, and returns `pg n` as page `n`'s records. -/
def t2500 {α : Type} (pg : Nat → List α) : Request → Response α := fun req =>
  match getParam req "offset" with
  | some (PVal.num n) => ⟨200, ⟨some ⟨some ⟨some 2500, some 1000, some n⟩⟩, some (pg n)⟩⟩
  | _ => ⟨400, ⟨none, none⟩⟩

/-- A transport whose every response succeeds with zero records. -/
def tZero : Request → Response Nat := fun _ =>
  ⟨200, ⟨some ⟨some ⟨some 0, some 0, some 0⟩⟩, some []⟩⟩

/-- A transport for the failure-isolation scenario: page 1 succeeds with
`record_count = 3`, `limit = 1` (a three-page window), echoed offset `1` and
one record; every other page request persistently fails with status 503. -/
def tC2 : Request → Response Nat := fun req =>
  match getParam req "offset" with
  | some (PVal.num 1) => ⟨200, ⟨some ⟨some ⟨some 3, some 1, some 1⟩⟩, some [7]⟩⟩
  | _ => ⟨503, ⟨none, none⟩⟩

/-- A transport whose every response succeeds with `record_count = 3`,
`limit = 1` and an absent echoed `offset` (so the parsed offset defaults
to `0`). -/
def tAbsent : Request → Response Nat := fun _ =>
  ⟨200, ⟨some ⟨some ⟨some 3, some 1, none⟩⟩, some []⟩⟩

/-- An all-success transport that echoes any requested `offset` back with
`record_count = 3`, `limit = 1`, and answers requests without an `offset`
parameter with an empty 200 response. -/
def tEcho : Request → Response Nat := fun r =>
  match getParam r "offset" with
  | some (PVal.num n) => ⟨200, ⟨some ⟨some ⟨some 3, some 1, some n⟩⟩, some []⟩⟩
  | _ => ⟨200, ⟨none, none⟩⟩

/-! ## Helper lemmas -/

theorem parse_response_ok {α : Type} (st : NOAAState α) (rd : RequestData α)
    (st2 : NOAAState α) (h : parse_response st rd = Except.ok st2) :
    st2.record_count = some ((effResultset rd).count.getD 0) ∧
    st2.records_per_page = some ((effResultset rd).limit.getD 0) ∧
    st2.current_page = some ((effResultset rd).offset.getD 0) ∧
    st2.pages = some (modelPages rd) ∧
    st2.results = st.results ++ rd.results.getD [] := by
  unfold parse_response at h
  by_cases h0 : (effResultset rd).count.getD 0 = 0
  · rw [if_pos h0] at h
    cases h
    simp [modelPages, pagesOfResultset, h0]
  · rw [if_neg h0] at h
    by_cases hl : (effResultset rd).limit.getD 0 = 0
    · rw [if_pos hl] at h
      cases h
    · rw [if_neg hl] at h
      cases h
      simp [modelPages, pagesOfResultset, h0, hl]

theorem request_result_page_fail {α : Type} (t : Request → Response α)
    (url : String) (st : NOAAState α) (default : Option String)
    (sd ed : Option Int) (pg : Option Nat) (ds dt loc stn lc dc : Option String)
    (h : (t (buildRequest url default sd ed pg ds dt loc stn lc dc)).status ≠ 200) :
    request_result_page t url st default sd ed pg ds dt loc stn lc dc =
      Except.ok (RRPReturn.statusOnly
        (t (buildRequest url default sd ed pg ds dt loc stn lc dc)).status, st) := by
  unfold request_result_page
  rw [if_neg h]

theorem request_result_page_200 {α : Type} (t : Request → Response α)
    (url : String) (st : NOAAState α) (default : Option String)
    (sd ed : Option Int) (pg : Option Nat) (ds dt loc stn lc dc : Option String)
    (h : (t (buildRequest url default sd ed pg ds dt loc stn lc dc)).status = 200) :
    request_result_page t url st default sd ed pg ds dt loc stn lc dc =
      match parse_response st (t (buildRequest url default sd ed pg ds dt loc stn lc dc)).body with
      | Except.error e => Except.error e
      | Except.ok st2 =>
        if truthyStr default then
          Except.ok (RRPReturn.data (t (buildRequest url default sd ed pg ds dt loc stn lc dc)).body, st2)
        else
          Except.ok (RRPReturn.statusOnly 200, st2) := by
  unfold request_result_page
  rw [if_pos h, h]

theorem parse_response_eq {α : Type} (st : NOAAState α) (rd : RequestData α) :
    parse_response st rd =
      if (effResultset rd).count.getD 0 ≠ 0 ∧ (effResultset rd).limit.getD 0 = 0 then
        Except.error ()
      else
        Except.ok ⟨some ((effResultset rd).count.getD 0), some ((effResultset rd).limit.getD 0),
          some ((effResultset rd).offset.getD 0), some (modelPages rd),
          st.results ++ rd.results.getD []⟩ := by
  unfold parse_response
  by_cases h0 : (effResultset rd).count.getD 0 = 0
  · rw [if_pos h0, if_neg (by simp [h0])]
    simp [modelPages, pagesOfResultset, h0]
  · by_cases hl : (effResultset rd).limit.getD 0 = 0
    · rw [if_neg h0, if_pos hl, if_pos ⟨h0, hl⟩]
    · rw [if_neg h0, if_neg hl, if_neg (by simp [hl])]
      simp [modelPages, pagesOfResultset, h0, hl]

theorem effResultset_mk {α : Type} (rs : Resultset) (r : Option (List α)) :
    effResultset (⟨some ⟨some rs⟩, r⟩ : RequestData α) = rs := rfl

theorem modelPages_mk {α : Type} (rs : Resultset) (r : Option (List α)) :
    modelPages (⟨some ⟨some rs⟩, r⟩ : RequestData α) = pagesOfResultset rs := rfl

theorem parse_response_simple {α : Type} (st : NOAAState α)
    (cnt lim off : Option Nat) (r : Option (List α)) (pgs : Nat)
    (h : ¬ (cnt.getD 0 ≠ 0 ∧ lim.getD 0 = 0))
    (hp : pagesOfResultset ⟨cnt, lim, off⟩ = pgs) :
    parse_response st ⟨some ⟨some ⟨cnt, lim, off⟩⟩, r⟩ =
      Except.ok ⟨some (cnt.getD 0), some (lim.getD 0), some (off.getD 0), some pgs,
        st.results ++ r.getD []⟩ := by
  rw [parse_response_eq, effResultset_mk, modelPages_mk, hp,
    show (⟨some ⟨some ⟨cnt, lim, off⟩⟩, r⟩ : RequestData α).results = r from rfl,
    show (⟨cnt, lim, off⟩ : Resultset).count = cnt from rfl,
    show (⟨cnt, lim, off⟩ : Resultset).limit = lim from rfl,
    show (⟨cnt, lim, off⟩ : Resultset).offset = off from rfl,
    if_neg h]

theorem rrp_of_response_200 {α : Type} (t : Request → Response α) (url : String)
    (st : NOAAState α) (default : Option String) (sd ed : Option Int)
    (pg : Option Nat) (ds dt loc stn lc dc : Option String)
    (body : RequestData α) (st2 : NOAAState α)
    (hresp : t (buildRequest url default sd ed pg ds dt loc stn lc dc) = ⟨200, body⟩)
    (hparse : parse_response st body = Except.ok st2) :
    request_result_page t url st default sd ed pg ds dt loc stn lc dc =
      Except.ok
        ((if truthyStr default then RRPReturn.data body else RRPReturn.statusOnly 200), st2) := by
  simp only [request_result_page]
  rw [hresp]
  rw [if_pos (show (Response.mk 200 body).status = 200 from rfl)]
  rw [show (Response.mk 200 body).body = body from rfl, hparse]
  cases h : truthyStr default <;> simp [h]

theorem pageLoop_zero {α : Type} (t : Request → Response α) (ws we : Int)
    (sid : String) (cp pages : Nat) (st : NOAAState α) :
    pageLoop t ws we sid 0 cp pages st =
      if cp < pages then Outcome.spin else Outcome.ok st [] := rfl

theorem pageLoop_succ {α : Type} (t : Request → Response α) (ws we : Int)
    (sid : String) (fuel cp pages : Nat) (st : NOAAState α) :
    pageLoop t ws we sid (fuel + 1) cp pages st =
      if cp < pages then
        match request_result_page t dataUrl st none (some ws) (some we)
            (some (cp + 1)) (some "GHCND") none none (some sid) none none with
        | Except.error _ => Outcome.exn
        | Except.ok (_, st2) =>
          match st2.current_page, st2.pages with
          | some c, some p =>
            match pageLoop t ws we sid fuel c p st2 with
            | Outcome.ok st3 reqs => Outcome.ok st3 (pageReq ws we sid (cp + 1) :: reqs)
            | x => x
          | _, _ => Outcome.ok st2 [pageReq ws we sid (cp + 1)]
      else Outcome.ok st [] := rfl

theorem pageLoop_stop {α : Type} (t : Request → Response α) (ws we : Int)
    (sid : String) (fuel cp pages : Nat) (st : NOAAState α) (h : ¬ cp < pages) :
    pageLoop t ws we sid fuel cp pages st = Outcome.ok st [] := by
  cases fuel with
  | zero => rw [pageLoop_zero, if_neg h]
  | succ fuel => rw [pageLoop_succ, if_neg h]

theorem pageLoop_step_ok {α : Type} (t : Request → Response α) (ws we : Int)
    (sid : String) (fuel cp pages : Nat) (st : NOAAState α) (ret : RRPReturn α)
    (rc rpp : Option Nat) (c p : Nat) (res : List α) (hcp : cp < pages)
    (hr : request_result_page t dataUrl st none (some ws) (some we)
      (some (cp + 1)) (some "GHCND") none none (some sid) none none =
      Except.ok (ret, ⟨rc, rpp, some c, some p, res⟩)) :
    pageLoop t ws we sid (fuel + 1) cp pages st =
      match pageLoop t ws we sid fuel c p ⟨rc, rpp, some c, some p, res⟩ with
      | Outcome.ok st3 reqs => Outcome.ok st3 (pageReq ws we sid (cp + 1) :: reqs)
      | x => x := by
  rw [pageLoop_succ, if_pos hcp, hr]

theorem windowLoop_zero {α : Type} (t : Request → Response α) (sid : String)
    (pfuel : Nat) (s e d : Int) (st : NOAAState α) :
    windowLoop t sid pfuel 0 s e d st =
      if s ≤ e then Outcome.spin else Outcome.ok st [] := rfl

theorem windowLoop_succ {α : Type} (t : Request → Response α) (sid : String)
    (pfuel wf : Nat) (s e d : Int) (st : NOAAState α) :
    windowLoop t sid pfuel (wf + 1) s e d st =
      if s ≤ e then
        match pageLoop t s (s + d - 1) sid pfuel 0 1 st with
        | Outcome.ok st2 reqs =>
          match windowLoop t sid pfuel wf (s + d) e d st2 with
          | Outcome.ok st3 reqs2 => Outcome.ok st3 (reqs ++ reqs2)
          | x => x
        | x => x
      else Outcome.ok st [] := rfl

theorem windowLoop_stop {α : Type} (t : Request → Response α) (sid : String)
    (pfuel wf : Nat) (s e d : Int) (st : NOAAState α) (h : ¬ s ≤ e) :
    windowLoop t sid pfuel wf s e d st = Outcome.ok st [] := by
  cases wf with
  | zero => rw [windowLoop_zero, if_neg h]
  | succ wf => rw [windowLoop_succ, if_neg h]

/-! ## C3: parse_response on partial responses -/

/-- C3 counterexample: `parse_response` does raise on a response whose
`count` is present and positive but whose `limit` is absent: the computation
`math.ceil(count / limit)` divides by the default `0` and raises
`ZeroDivisionError`, contrary to the claim that no key combination errors. -/
theorem C3_counterexample :
    parse_response (initState : NOAAState Nat)
      ⟨some ⟨some ⟨some 5, none, none⟩⟩, none⟩ = Except.error () := rfl

/-- C3 amended: `parse_response` never raises and defaults every absent key
to zero (empty sequence for `results`), provided the effective `count` is
zero or the effective `limit` is nonzero; when `count` is positive and
`limit` is zero or absent the division by zero raises. -/
theorem C3_amended {α : Type} (st : NOAAState α) (rd : RequestData α)
    (h : (effResultset rd).count.getD 0 = 0 ∨ (effResultset rd).limit.getD 0 ≠ 0) :
    parse_response st rd = Except.ok
      ⟨some ((effResultset rd).count.getD 0), some ((effResultset rd).limit.getD 0),
       some ((effResultset rd).offset.getD 0),
       some (modelPages rd),
       st.results ++ rd.results.getD []⟩ := by
  rcases h with h | h
  · simp [parse_response, modelPages, pagesOfResultset, h]
  · by_cases h0 : (effResultset rd).count.getD 0 = 0
    · simp [parse_response, modelPages, pagesOfResultset, h0]
    · simp [parse_response, modelPages, pagesOfResultset, h0, h]

/-- C3 witness: a concrete response with `count = 3`, `limit = 2`, an absent
`offset` and two records parses without error, defaulting `offset` to `0`
and computing two pages. -/
theorem C3_witness :
    parse_response (initState : NOAAState Nat) ⟨some ⟨some ⟨some 3, some 2, none⟩⟩, some [9, 8]⟩ =
      Except.ok ⟨some 3, some 2, some 0, some 2, [9, 8]⟩ :=
  C3_amended initState ⟨some ⟨some ⟨some 3, some 2, none⟩⟩, some [9, 8]⟩ (Or.inr (by decide))

/-! ## C5: empty span -/

/-- C5: when `start_date > end_date` the outer loop of `get_station_summary`
never runs: the run completes with the fresh object state (empty `_RESULTS`)
and an empty request trace, raising nothing. -/
theorem C5_empty_span {α : Type} (t : Request → Response α) (sid : String)
    (s e d : Int) (pf wf : Nat) (h : e < s) :
    get_station_summary t sid s e d pf wf = Outcome.ok initState [] := by
  unfold get_station_summary
  exact windowLoop_stop t sid pf wf s e d initState (by omega)

/-- C5 witness: the concrete span `[1, 0]` with a transport that would fail
every request still yields the empty completed run with no requests. -/
theorem C5_witness :
    get_station_summary (fun _ => (⟨404, ⟨none, none⟩⟩ : Response Nat)) "S" 1 0 1 1 1 =
      Outcome.ok initState [] :=
  C5_empty_span (fun _ => (⟨404, ⟨none, none⟩⟩ : Response Nat)) "S" 1 0 1 1 1 (by decide)

/-! ## C6: non-200 responses are returned as data -/

/-- C6: on any non-200 transport status, `request_result_page` returns the
status code as a value, raises nothing, never parses the body, and leaves
every field of the object state (accumulator and page metadata) unchanged. -/
theorem C6_failure_as_value {α : Type} (t : Request → Response α)
    (url : String) (st : NOAAState α) (default : Option String)
    (sd ed : Option Int) (pg : Option Nat) (ds dt loc stn lc dc : Option String)
    (h : (t (buildRequest url default sd ed pg ds dt loc stn lc dc)).status ≠ 200) :
    request_result_page t url st default sd ed pg ds dt loc stn lc dc =
      Except.ok (RRPReturn.statusOnly
        (t (buildRequest url default sd ed pg ds dt loc stn lc dc)).status, st) :=
  request_result_page_fail t url st default sd ed pg ds dt loc stn lc dc h

/-- C6 witness: a transport answering 404 makes `request_result_page`
return `{status: 404}` with the fresh state untouched. -/
theorem C6_witness :
    request_result_page (fun _ => (⟨404, ⟨none, none⟩⟩ : Response Nat)) "u" initState
      none none none none none none none none none none =
      Except.ok (RRPReturn.statusOnly 404, initState) :=
  C6_failure_as_value (fun _ => (⟨404, ⟨none, none⟩⟩ : Response Nat)) "u" initState
    none none none none none none none none none none (by decide)

/-! ## C9: return value of request_result_page on success -/

/-- C9 counterexample: the `return data` branch is guarded by Python
truthiness, not by presence: with `default` supplied but empty (`""`) a
200 response still returns only the status mapping, not the parsed body. -/
theorem C9_counterexample :
    request_result_page (fun _ => (⟨200, ⟨none, none⟩⟩ : Response Nat)) "u" initState
      (some "") none none none none none none none none none =
      Except.ok (RRPReturn.statusOnly 200, ⟨some 0, some 0, some 0, some 0, []⟩) ∧
    (RRPReturn.statusOnly 200 : RRPReturn Nat) ≠ RRPReturn.data ⟨none, none⟩ :=
  ⟨rfl, by decide⟩

/-- C9 amended: on a 200 response whose body parses without raising,
`request_result_page` returns the full parsed JSON body when `default` is
truthy (supplied and nonempty) and only the status mapping when `default`
is absent or empty; either way the records land in the object's accumulated
state `st2`. -/
theorem C9_amended {α : Type} (t : Request → Response α) (url : String)
    (st : NOAAState α) (default : Option String) (sd ed : Option Int)
    (pg : Option Nat) (ds dt loc stn lc dc : Option String) (st2 : NOAAState α)
    (h200 : (t (buildRequest url default sd ed pg ds dt loc stn lc dc)).status = 200)
    (hp : parse_response st (t (buildRequest url default sd ed pg ds dt loc stn lc dc)).body =
      Except.ok st2) :
    request_result_page t url st default sd ed pg ds dt loc stn lc dc =
      Except.ok
        ((if truthyStr default then
            RRPReturn.data (t (buildRequest url default sd ed pg ds dt loc stn lc dc)).body
          else RRPReturn.statusOnly 200), st2) := by
  rw [request_result_page_200 t url st default sd ed pg ds dt loc stn lc dc h200, hp]
  rcases htd : truthyStr default <;> simp [htd]

/-- C9 witness: with the truthy suffix `"x"` and a 200 empty-body response,
`request_result_page` returns the parsed body itself. -/
theorem C9_witness :
    request_result_page (fun _ => (⟨200, ⟨none, none⟩⟩ : Response Nat)) "u" initState
      (some "x") none none none none none none none none none =
      Except.ok (RRPReturn.data ⟨none, none⟩, ⟨some 0, some 0, some 0, some 0, []⟩) :=
  C9_amended (fun _ => (⟨200, ⟨none, none⟩⟩ : Response Nat)) "u" initState
    (some "x") none none none none none none none none none
    ⟨some 0, some 0, some 0, some 0, []⟩ rfl rfl

/-! ## C4: record conservation over three pages -/

/-- C4: against a transport reporting `record_count = 2500`, `limit = 1000`
and echoing the requested offset, the pagination loop of one window issues
exactly the three page requests `1, 2, 3` and accumulates exactly the
concatenation of the three pages' results arrays, so the accumulated length
is the sum of the page lengths: no record duplicated or dropped. -/
theorem C4_record_conservation {α : Type} (pg : Nat → List α) (ws we : Int)
    (sid : String) (f : Nat) :
    traceOf (pageLoop (t2500 pg) ws we sid (f + 3) 0 1 initState) =
      [pageReq ws we sid 1, pageReq ws we sid 2, pageReq ws we sid 3] ∧
    resultsOf (pageLoop (t2500 pg) ws we sid (f + 3) 0 1 initState) = pg 1 ++ pg 2 ++ pg 3 ∧
    (resultsOf (pageLoop (t2500 pg) ws we sid (f + 3) 0 1 initState)).length =
      (pg 1).length + (pg 2).length + (pg 3).length := by
  have hb1 : t2500 pg (buildRequest dataUrl none (some ws) (some we) (some (0 + 1))
      (some "GHCND") none none (some sid) none none) =
      ⟨200, ⟨some ⟨some ⟨some 2500, some 1000, some 1⟩⟩, some (pg 1)⟩⟩ := rfl
  have hb2 : t2500 pg (buildRequest dataUrl none (some ws) (some we) (some (1 + 1))
      (some "GHCND") none none (some sid) none none) =
      ⟨200, ⟨some ⟨some ⟨some 2500, some 1000, some 2⟩⟩, some (pg 2)⟩⟩ := rfl
  have hb3 : t2500 pg (buildRequest dataUrl none (some ws) (some we) (some (2 + 1))
      (some "GHCND") none none (some sid) none none) =
      ⟨200, ⟨some ⟨some ⟨some 2500, some 1000, some 3⟩⟩, some (pg 3)⟩⟩ := rfl
  have hpr1 : parse_response (initState : NOAAState α)
      (⟨some ⟨some ⟨some 2500, some 1000, some 1⟩⟩, some (pg 1)⟩ : RequestData α) =
      Except.ok ⟨some 2500, some 1000, some 1, some 3, pg 1⟩ := by
    have h := parse_response_simple (initState : NOAAState α) (some 2500) (some 1000) (some 1)
      (some (pg 1)) 3 (by norm_num) (by decide)
    simpa [initState] using h
  have hpr2 : parse_response (⟨some 2500, some 1000, some 1, some 3, pg 1⟩ : NOAAState α)
      (⟨some ⟨some ⟨some 2500, some 1000, some 2⟩⟩, some (pg 2)⟩ : RequestData α) =
      Except.ok ⟨some 2500, some 1000, some 2, some 3, pg 1 ++ pg 2⟩ := by
    have h := parse_response_simple (⟨some 2500, some 1000, some 1, some 3, pg 1⟩ : NOAAState α)
      (some 2500) (some 1000) (some 2) (some (pg 2)) 3 (by norm_num) (by decide)
    simpa using h
  have hpr3 : parse_response (⟨some 2500, some 1000, some 2, some 3, pg 1 ++ pg 2⟩ : NOAAState α)
      (⟨some ⟨some ⟨some 2500, some 1000, some 3⟩⟩, some (pg 3)⟩ : RequestData α) =
      Except.ok ⟨some 2500, some 1000, some 3, some 3, pg 1 ++ pg 2 ++ pg 3⟩ := by
    have h := parse_response_simple (⟨some 2500, some 1000, some 2, some 3, pg 1 ++ pg 2⟩ : NOAAState α)
      (some 2500) (some 1000) (some 3) (some (pg 3)) 3 (by norm_num) (by decide)
    simpa using h
  have hr1 := rrp_of_response_200 (t2500 pg) dataUrl initState none (some ws) (some we)
    (some (0 + 1)) (some "GHCND") none none (some sid) none none _ _ hb1 hpr1
  have hr2 := rrp_of_response_200 (t2500 pg) dataUrl ⟨some 2500, some 1000, some 1, some 3, pg 1⟩
    none (some ws) (some we) (some (1 + 1)) (some "GHCND") none none (some sid) none none _ _ hb2 hpr2
  have hr3 := rrp_of_response_200 (t2500 pg) dataUrl ⟨some 2500, some 1000, some 2, some 3, pg 1 ++ pg 2⟩
    none (some ws) (some we) (some (2 + 1)) (some "GHCND") none none (some sid) none none _ _ hb3 hpr3
  simp only [truthyStr] at hr1 hr2 hr3
  have e1 := pageLoop_step_ok (t2500 pg) ws we sid (f + 2) 0 1 initState
    (RRPReturn.statusOnly 200) (some 2500) (some 1000) 1 3 (pg 1) (by omega) (by
      simpa using hr1)
  have e2 := pageLoop_step_ok (t2500 pg) ws we sid (f + 1) 1 3
    ⟨some 2500, some 1000, some 1, some 3, pg 1⟩
    (RRPReturn.statusOnly 200) (some 2500) (some 1000) 2 3 (pg 1 ++ pg 2) (by omega) (by
      simpa using hr2)
  have e3 := pageLoop_step_ok (t2500 pg) ws we sid f 2 3
    ⟨some 2500, some 1000, some 2, some 3, pg 1 ++ pg 2⟩
    (RRPReturn.statusOnly 200) (some 2500) (some 1000) 3 3 (pg 1 ++ pg 2 ++ pg 3) (by omega) (by
      simpa using hr3)
  have r3 : pageLoop (t2500 pg) ws we sid (f + 1) 2 3
      (⟨some 2500, some 1000, some 2, some 3, pg 1 ++ pg 2⟩ : NOAAState α) =
      Outcome.ok ⟨some 2500, some 1000, some 3, some 3, pg 1 ++ pg 2 ++ pg 3⟩
        [pageReq ws we sid 3] := by
    rw [e3, pageLoop_stop _ _ _ _ f 3 3 _ (by omega)]
  have r2 : pageLoop (t2500 pg) ws we sid (f + 2) 1 3
      (⟨some 2500, some 1000, some 1, some 3, pg 1⟩ : NOAAState α) =
      Outcome.ok ⟨some 2500, some 1000, some 3, some 3, pg 1 ++ pg 2 ++ pg 3⟩
        [pageReq ws we sid 2, pageReq ws we sid 3] := by
    rw [e2, r3]
  have r1 : pageLoop (t2500 pg) ws we sid (f + 3) 0 1 initState =
      Outcome.ok ⟨some 2500, some 1000, some 3, some 3, pg 1 ++ pg 2 ++ pg 3⟩
        [pageReq ws we sid 1, pageReq ws we sid 2, pageReq ws we sid 3] := by
    rw [e1, r2]
  have hres : resultsOf (pageLoop (t2500 pg) ws we sid (f + 3) 0 1 initState) =
      pg 1 ++ pg 2 ++ pg 3 := by
    rw [r1]
    rfl
  refine ⟨?_, hres, ?_⟩
  · rw [r1]
    rfl
  · rw [hres, List.length_append, List.length_append]

theorem pagesOfResultset_zero (rs : Resultset) (h : rs.count.getD 0 = 0) :
    pagesOfResultset rs = 0 := by
  simp [pagesOfResultset, h]

theorem parse_response_ok_eq {α : Type} (st : NOAAState α) (rd : RequestData α)
    (st2 : NOAAState α) (h : parse_response st rd = Except.ok st2) :
    st2 = ⟨some ((effResultset rd).count.getD 0), some ((effResultset rd).limit.getD 0),
      some ((effResultset rd).offset.getD 0), some (modelPages rd),
      st.results ++ rd.results.getD []⟩ := by
  rw [parse_response_eq] at h
  by_cases hc : (effResultset rd).count.getD 0 ≠ 0 ∧ (effResultset rd).limit.getD 0 = 0
  · rw [if_pos hc] at h
    cases h
  · rw [if_neg hc] at h
    cases h
    rfl

theorem getParam_pageReq_offset (ws we : Int) (sid : String) (n : Nat) (h : n ≠ 0) :
    getParam (pageReq ws we sid n) "offset" = some (PVal.num n) := by
  have ht : truthyNat (some n) = true := by simp [truthyNat, h]
  simp [pageReq, buildRequest, getParam, condParam, truthyStr, truthyDate, ht, lookupParam]

theorem pageLoop_tC2_stuck (f : Nat) :
    ∀ (rc rpp : Option Nat) (res : List Nat),
      pageLoop tC2 0 0 "S" f 1 3 ⟨rc, rpp, some 1, some 3, res⟩ = Outcome.spin := by
  induction f with
  | zero =>
    intro rc rpp res
    rw [pageLoop_zero, if_pos (by omega)]
  | succ f ih =>
    intro rc rpp res
    have hfail : request_result_page tC2 dataUrl
        (⟨rc, rpp, some 1, some 3, res⟩ : NOAAState Nat) none (some 0) (some 0)
        (some (1 + 1)) (some "GHCND") none none (some "S") none none =
        Except.ok (RRPReturn.statusOnly 503, ⟨rc, rpp, some 1, some 3, res⟩) := by
      have hb : tC2 (buildRequest dataUrl none (some 0) (some 0) (some (1 + 1))
          (some "GHCND") none none (some "S") none none) = ⟨503, ⟨none, none⟩⟩ := rfl
      have h := request_result_page_fail tC2 dataUrl
        (⟨rc, rpp, some 1, some 3, res⟩ : NOAAState Nat) none (some 0) (some 0)
        (some (1 + 1)) (some "GHCND") none none (some "S") none none
        (by rw [hb]; decide)
      rw [hb] at h
      exact h
    have e := pageLoop_step_ok tC2 0 0 "S" f 1 3 ⟨rc, rpp, some 1, some 3, res⟩
      (RRPReturn.statusOnly 503) rc rpp 1 3 res (by omega) hfail
    rw [e, ih rc rpp res]

/-- C2: the claim fails on the code. With the transport `tC2` (page 1 of a
three-page window succeeds, page 2 persistently fails with 503), the
pagination loop does not terminate: after the failure the loop re-reads the
stale `_CURRENT_PAGE = 1`, `_PAGES = 3` left by page 1, finds `1 < 3`, and
re-issues page 2 forever instead of breaking out of the window. -/
theorem C2_failure_retries_forever :
    ¬ pageTerminates tC2 0 0 "S" 0 1 initState := by
  rintro ⟨f, hf⟩
  apply hf
  cases f with
  | zero => rw [pageLoop_zero, if_pos (by omega)]
  | succ f =>
    have hb : tC2 (buildRequest dataUrl none (some 0) (some 0) (some (0 + 1))
        (some "GHCND") none none (some "S") none none) =
        ⟨200, ⟨some ⟨some ⟨some 3, some 1, some 1⟩⟩, some [7]⟩⟩ := rfl
    have hpr : parse_response (initState : NOAAState Nat)
        (⟨some ⟨some ⟨some 3, some 1, some 1⟩⟩, some [7]⟩ : RequestData Nat) =
        Except.ok ⟨some 3, some 1, some 1, some 3, [7]⟩ := by
      have h := parse_response_simple (initState : NOAAState Nat) (some 3) (some 1)
        (some 1) (some [7]) 3 (by norm_num) (by decide)
      simpa [initState] using h
    have hr := rrp_of_response_200 tC2 dataUrl initState none (some 0) (some 0)
      (some (0 + 1)) (some "GHCND") none none (some "S") none none _ _ hb hpr
    have hr2 : request_result_page tC2 dataUrl initState none (some 0) (some 0)
        (some (0 + 1)) (some "GHCND") none none (some "S") none none =
        Except.ok (RRPReturn.statusOnly 200, ⟨some 3, some 1, some 1, some 3, [7]⟩) := by
      simpa [truthyStr] using hr
    have e := pageLoop_step_ok tC2 0 0 "S" f 0 1 initState
      (RRPReturn.statusOnly 200) (some 3) (some 1) 1 3 [7] (by omega) hr2
    rw [e, pageLoop_tC2_stuck f (some 3) (some 1) [7]]

theorem pageLoop_tAbsent_stuck (f : Nat) :
    ∀ (st : NOAAState Nat), pageLoop tAbsent 0 0 "S" f 0 3 st = Outcome.spin := by
  induction f with
  | zero =>
    intro st
    rw [pageLoop_zero, if_pos (by omega)]
  | succ f ih =>
    intro st
    have hb : tAbsent (buildRequest dataUrl none (some 0) (some 0) (some (0 + 1))
        (some "GHCND") none none (some "S") none none) =
        ⟨200, ⟨some ⟨some ⟨some 3, some 1, none⟩⟩, some []⟩⟩ := rfl
    have hpr : parse_response st
        (⟨some ⟨some ⟨some 3, some 1, none⟩⟩, some []⟩ : RequestData Nat) =
        Except.ok ⟨some 3, some 1, some 0, some 3, st.results⟩ := by
      have h := parse_response_simple st (some 3) (some 1) none (some []) 3
        (by norm_num) (by decide)
      simpa using h
    have hr := rrp_of_response_200 tAbsent dataUrl st none (some 0) (some 0)
      (some (0 + 1)) (some "GHCND") none none (some "S") none none _ _ hb hpr
    have hr2 : request_result_page tAbsent dataUrl st none (some 0) (some 0)
        (some (0 + 1)) (some "GHCND") none none (some "S") none none =
        Except.ok (RRPReturn.statusOnly 200, ⟨some 3, some 1, some 0, some 3, st.results⟩) := by
      simpa [truthyStr] using hr
    have e := pageLoop_step_ok tAbsent 0 0 "S" f 0 3 st
      (RRPReturn.statusOnly 200) (some 3) (some 1) 0 3 st.results (by omega) hr2
    rw [e, ih ⟨some 3, some 1, some 0, some 3, st.results⟩]

/-- C7 counterexample: a transport whose responses all succeed with a finite
`record_count = 3` but an absent echoed `offset` makes the pagination loop
run forever: the parsed offset defaults to `0`, so `current_page` is reset
to `0` on every iteration and `0 < 3` never fails — the absent offset does
not terminate the loop, contrary to the claim. -/
theorem C7_counterexample :
    ¬ pageTerminates tAbsent 0 0 "S" 0 1 initState := by
  rintro ⟨f, hf⟩
  apply hf
  cases f with
  | zero => rw [pageLoop_zero, if_pos (by omega)]
  | succ f =>
    have hb : tAbsent (buildRequest dataUrl none (some 0) (some 0) (some (0 + 1))
        (some "GHCND") none none (some "S") none none) =
        ⟨200, ⟨some ⟨some ⟨some 3, some 1, none⟩⟩, some []⟩⟩ := rfl
    have hpr : parse_response (initState : NOAAState Nat)
        (⟨some ⟨some ⟨some 3, some 1, none⟩⟩, some []⟩ : RequestData Nat) =
        Except.ok ⟨some 3, some 1, some 0, some 3, []⟩ := by
      have h := parse_response_simple (initState : NOAAState Nat) (some 3) (some 1)
        none (some []) 3 (by norm_num) (by decide)
      simpa [initState] using h
    have hr := rrp_of_response_200 tAbsent dataUrl initState none (some 0) (some 0)
      (some (0 + 1)) (some "GHCND") none none (some "S") none none _ _ hb hpr
    have hr2 : request_result_page tAbsent dataUrl initState none (some 0) (some 0)
        (some (0 + 1)) (some "GHCND") none none (some "S") none none =
        Except.ok (RRPReturn.statusOnly 200, ⟨some 3, some 1, some 0, some 3, []⟩) := by
      simpa [truthyStr] using hr
    have e := pageLoop_step_ok tAbsent 0 0 "S" f 0 1 initState
      (RRPReturn.statusOnly 200) (some 3) (some 1) 0 3 [] (by omega) hr2
    rw [e, pageLoop_tAbsent_stuck f ⟨some 3, some 1, some 0, some 3, []⟩]

theorem pageLoop_echo_bounded {α : Type} (t : Request → Response α) (B : Nat)
    (h200 : ∀ r, (t r).status = 200)
    (hecho : ∀ r n, getParam r "offset" = some (PVal.num n) →
      (effResultset (t r).body).offset.getD 0 = n)
    (hB : ∀ r, modelPages (t r).body ≤ B) (ws we : Int) (sid : String) :
    ∀ (fuel cp pages : Nat) (st : NOAAState α), pages ≤ B → B < cp + fuel →
      pageLoop t ws we sid fuel cp pages st ≠ Outcome.spin := by
  intro fuel
  induction fuel with
  | zero =>
    intro cp pages st h1 h2
    rw [pageLoop_zero, if_neg (by omega)]
    exact fun h => Outcome.noConfusion h
  | succ f ih =>
    intro cp pages st h1 h2
    by_cases hcp : cp < pages
    · have hs : (t (buildRequest dataUrl none (some ws) (some we) (some (cp + 1))
          (some "GHCND") none none (some sid) none none)).status = 200 := h200 _
      rcases hp : parse_response st (t (buildRequest dataUrl none (some ws) (some we)
          (some (cp + 1)) (some "GHCND") none none (some sid) none none)).body with he | st2
      · have hrrp : request_result_page t dataUrl st none (some ws) (some we)
            (some (cp + 1)) (some "GHCND") none none (some sid) none none =
            Except.error he := by
          rw [request_result_page_200 t dataUrl st none (some ws) (some we)
            (some (cp + 1)) (some "GHCND") none none (some sid) none none hs, hp]
        rw [pageLoop_succ, if_pos hcp, hrrp]
        exact fun h => Outcome.noConfusion h
      · have heq := parse_response_ok_eq st _ st2 hp
        rw [heq] at hp
        have hrrp : request_result_page t dataUrl st none (some ws) (some we)
            (some (cp + 1)) (some "GHCND") none none (some sid) none none =
            Except.ok (RRPReturn.statusOnly 200,
              ⟨some ((effResultset (t (buildRequest dataUrl none (some ws) (some we)
                  (some (cp + 1)) (some "GHCND") none none (some sid) none none)).body).count.getD 0),
               some ((effResultset (t (buildRequest dataUrl none (some ws) (some we)
                  (some (cp + 1)) (some "GHCND") none none (some sid) none none)).body).limit.getD 0),
               some ((effResultset (t (buildRequest dataUrl none (some ws) (some we)
                  (some (cp + 1)) (some "GHCND") none none (some sid) none none)).body).offset.getD 0),
               some (modelPages (t (buildRequest dataUrl none (some ws) (some we)
                  (some (cp + 1)) (some "GHCND") none none (some sid) none none)).body),
               st.results ++ ((t (buildRequest dataUrl none (some ws) (some we)
                  (some (cp + 1)) (some "GHCND") none none (some sid) none none)).body).results.getD []⟩) := by
          rw [request_result_page_200 t dataUrl st none (some ws) (some we)
            (some (cp + 1)) (some "GHCND") none none (some sid) none none hs, hp]
          rfl
        have hoff : (effResultset (t (buildRequest dataUrl none (some ws) (some we)
            (some (cp + 1)) (some "GHCND") none none (some sid) none none)).body).offset.getD 0 =
            cp + 1 :=
          hecho _ (cp + 1) (getParam_pageReq_offset ws we sid (cp + 1) (by omega))
        have e := pageLoop_step_ok t ws we sid f cp pages st (RRPReturn.statusOnly 200)
          (some ((effResultset (t (buildRequest dataUrl none (some ws) (some we)
              (some (cp + 1)) (some "GHCND") none none (some sid) none none)).body).count.getD 0))
          (some ((effResultset (t (buildRequest dataUrl none (some ws) (some we)
              (some (cp + 1)) (some "GHCND") none none (some sid) none none)).body).limit.getD 0))
          ((effResultset (t (buildRequest dataUrl none (some ws) (some we)
              (some (cp + 1)) (some "GHCND") none none (some sid) none none)).body).offset.getD 0)
          (modelPages (t (buildRequest dataUrl none (some ws) (some we)
              (some (cp + 1)) (some "GHCND") none none (some sid) none none)).body)
          (st.results ++ ((t (buildRequest dataUrl none (some ws) (some we)
              (some (cp + 1)) (some "GHCND") none none (some sid) none none)).body).results.getD [])
          hcp hrrp
        rw [e, hoff]
        cases hout : pageLoop t ws we sid f (cp + 1)
            (modelPages (t (buildRequest dataUrl none (some ws) (some we)
              (some (cp + 1)) (some "GHCND") none none (some sid) none none)).body)
            ⟨some ((effResultset (t (buildRequest dataUrl none (some ws) (some we)
                (some (cp + 1)) (some "GHCND") none none (some sid) none none)).body).count.getD 0),
             some ((effResultset (t (buildRequest dataUrl none (some ws) (some we)
                (some (cp + 1)) (some "GHCND") none none (some sid) none none)).body).limit.getD 0),
             some (cp + 1),
             some (modelPages (t (buildRequest dataUrl none (some ws) (some we)
                (some (cp + 1)) (some "GHCND") none none (some sid) none none)).body),
             st.results ++ ((t (buildRequest dataUrl none (some ws) (some we)
                (some (cp + 1)) (some "GHCND") none none (some sid) none none)).body).results.getD []⟩ with
        | ok st3 reqs => exact fun h => Outcome.noConfusion h
        | exn => exact fun h => Outcome.noConfusion h
        | spin => exact absurd hout (ih (cp + 1) _ _ (hB _) (by omega))
    · rw [pageLoop_succ, if_neg hcp]
      exact fun h => Outcome.noConfusion h

theorem pageLoop_count_zero_probe {α : Type} (t : Request → Response α) (ws we : Int)
    (sid : String) (st : NOAAState α) (fuel : Nat)
    (h200 : (t (pageReq ws we sid 1)).status = 200)
    (hc0 : (effResultset (t (pageReq ws we sid 1)).body).count.getD 0 = 0) :
    pageLoop t ws we sid (fuel + 1) 0 1 st =
      Outcome.ok
        ⟨some 0,
         some ((effResultset (t (pageReq ws we sid 1)).body).limit.getD 0),
         some ((effResultset (t (pageReq ws we sid 1)).body).offset.getD 0),
         some 0,
         st.results ++ (t (pageReq ws we sid 1)).body.results.getD []⟩
        [pageReq ws we sid 1] := by
  have hs : (t (buildRequest dataUrl none (some ws) (some we) (some (0 + 1))
      (some "GHCND") none none (some sid) none none)).status = 200 := h200
  have hc0b : (effResultset (t (buildRequest dataUrl none (some ws) (some we)
      (some (0 + 1)) (some "GHCND") none none (some sid) none none)).body).count.getD 0 =
      0 := hc0
  have hmp : modelPages (t (buildRequest dataUrl none (some ws) (some we)
      (some (0 + 1)) (some "GHCND") none none (some sid) none none)).body = 0 := by
    unfold modelPages
    exact pagesOfResultset_zero _ hc0b
  have hp : parse_response st (t (buildRequest dataUrl none (some ws) (some we)
      (some (0 + 1)) (some "GHCND") none none (some sid) none none)).body =
      Except.ok ⟨some 0,
        some ((effResultset (t (buildRequest dataUrl none (some ws) (some we)
          (some (0 + 1)) (some "GHCND") none none (some sid) none none)).body).limit.getD 0),
        some ((effResultset (t (buildRequest dataUrl none (some ws) (some we)
          (some (0 + 1)) (some "GHCND") none none (some sid) none none)).body).offset.getD 0),
        some 0,
        st.results ++ ((t (buildRequest dataUrl none (some ws) (some we)
          (some (0 + 1)) (some "GHCND") none none (some sid) none none)).body).results.getD []⟩ := by
    rw [parse_response_eq, if_neg (by simp [hc0b]), hc0b, hmp]
  have hrrp : request_result_page t dataUrl st none (some ws) (some we)
      (some (0 + 1)) (some "GHCND") none none (some sid) none none =
      Except.ok (RRPReturn.statusOnly 200,
        ⟨some 0,
         some ((effResultset (t (buildRequest dataUrl none (some ws) (some we)
           (some (0 + 1)) (some "GHCND") none none (some sid) none none)).body).limit.getD 0),
         some ((effResultset (t (buildRequest dataUrl none (some ws) (some we)
           (some (0 + 1)) (some "GHCND") none none (some sid) none none)).body).offset.getD 0),
         some 0,
         st.results ++ ((t (buildRequest dataUrl none (some ws) (some we)
           (some (0 + 1)) (some "GHCND") none none (some sid) none none)).body).results.getD []⟩) := by
    rw [request_result_page_200 t dataUrl st none (some ws) (some we)
      (some (0 + 1)) (some "GHCND") none none (some sid) none none hs, hp]
    rfl
  have e := pageLoop_step_ok t ws we sid fuel 0 1 st (RRPReturn.statusOnly 200)
    (some 0)
    (some ((effResultset (t (buildRequest dataUrl none (some ws) (some we)
      (some (0 + 1)) (some "GHCND") none none (some sid) none none)).body).limit.getD 0))
    ((effResultset (t (buildRequest dataUrl none (some ws) (some we)
      (some (0 + 1)) (some "GHCND") none none (some sid) none none)).body).offset.getD 0)
    0
    (st.results ++ ((t (buildRequest dataUrl none (some ws) (some we)
      (some (0 + 1)) (some "GHCND") none none (some sid) none none)).body).results.getD [])
    (by omega) hrrp
  rw [e, pageLoop_stop t ws we sid fuel _ 0 _ (by omega)]
  rfl

/-- C7 amended: the pagination loop terminates for every all-success
transport that echoes the requested offset and reports a bounded page total
(the code's own loop counters then advance past the total); and after a
first probe reporting `record_count = 0` exactly that one request is
issued.  The claim as stated is false: a finite `record_count` alone does
not bound the loop, and an absent echoed offset does not terminate it (it
defaults to `0` and the loop restarts; only a still-`None` state breaks). -/
theorem C7_amended :
    (∀ (α : Type) (t : Request → Response α) (B : Nat) (ws we : Int) (sid : String)
        (st : NOAAState α),
      (∀ r, (t r).status = 200) →
      (∀ r n, getParam r "offset" = some (PVal.num n) →
        (effResultset (t r).body).offset.getD 0 = n) →
      (∀ r, modelPages (t r).body ≤ B) →
      pageTerminates t ws we sid 0 1 st) ∧
    (∀ (α : Type) (t : Request → Response α) (ws we : Int) (sid : String)
        (st : NOAAState α) (fuel : Nat),
      (t (pageReq ws we sid 1)).status = 200 →
      (effResultset (t (pageReq ws we sid 1)).body).count.getD 0 = 0 →
      ∃ st2, pageLoop t ws we sid (fuel + 1) 0 1 st =
        Outcome.ok st2 [pageReq ws we sid 1]) := by
  constructor
  · intro α t B ws we sid st h200 hecho hB
    exact ⟨B + 2, pageLoop_echo_bounded t (B + 1) h200 hecho
      (fun r => Nat.le_succ_of_le (hB r)) ws we sid (B + 2) 0 1 st (by omega) (by omega)⟩
  · intro α t ws we sid st fuel h200 hc0
    exact ⟨_, pageLoop_count_zero_probe t ws we sid st fuel h200 hc0⟩

/-- C7 witness: the echoing transport `tEcho` (bounded by three pages)
makes the pagination loop terminate, and against `tZero` (whose first
response reports zero records) the loop issues exactly the single probe. -/
theorem C7_witness :
    pageTerminates tEcho 0 0 "S" 0 1 initState ∧
    (∃ st2, pageLoop tZero 0 0 "S" (0 + 1) 0 1 initState =
      Outcome.ok st2 [pageReq 0 0 "S" 1]) := by
  constructor
  · refine C7_amended.1 Nat tEcho 3 0 0 "S" initState ?_ ?_ ?_
    · intro r
      unfold tEcho
      rcases hg : getParam r "offset" with - | v
      · simp [hg]
      · rcases v with s | n | dt <;> simp [hg]
    · intro r n h
      unfold tEcho
      rw [h]
      rfl
    · intro r
      unfold tEcho
      rcases hg : getParam r "offset" with - | v
      · simp [hg, modelPages, effResultset, pagesOfResultset]
      · rcases v with s | n | dt <;>
          simp [hg, modelPages, effResultset, pagesOfResultset]
  · exact C7_amended.2 Nat tZero 0 0 "S" initState 0 rfl rfl

theorem respRecords_append {α : Type} (t : Request → Response α) (l1 l2 : List Request) :
    respRecords t (l1 ++ l2) = respRecords t l1 ++ respRecords t l2 := by
  induction l1 with
  | nil => rfl
  | cons r rs ih => simp [respRecords, ih]

theorem request_result_page_results {α : Type} (t : Request → Response α)
    (url : String) (st : NOAAState α) (default : Option String)
    (sd ed : Option Int) (pg : Option Nat) (ds dt loc stn lc dc : Option String)
    (ret : RRPReturn α) (st2 : NOAAState α)
    (h : request_result_page t url st default sd ed pg ds dt loc stn lc dc =
      Except.ok (ret, st2)) :
    st2.results = st.results ++
      (if (t (buildRequest url default sd ed pg ds dt loc stn lc dc)).status = 200
       then (t (buildRequest url default sd ed pg ds dt loc stn lc dc)).body.results.getD []
       else []) := by
  by_cases hs : (t (buildRequest url default sd ed pg ds dt loc stn lc dc)).status = 200
  · rw [request_result_page_200 t url st default sd ed pg ds dt loc stn lc dc hs] at h
    rcases hp : parse_response st
        (t (buildRequest url default sd ed pg ds dt loc stn lc dc)).body with he | stp
    · rw [hp] at h
      simp at h
    · rw [hp] at h
      have hres := (parse_response_ok st _ stp hp).2.2.2.2
      cases htd : truthyStr default <;> rw [htd] at h <;> simp at h <;>
        rw [if_pos hs, ← h.2] <;> exact hres
  · rw [request_result_page_fail t url st default sd ed pg ds dt loc stn lc dc hs] at h
    simp at h
    rw [if_neg hs, ← h.2, List.append_nil]

theorem pageLoop_inv {α : Type} (t : Request → Response α) (ws we : Int) (sid : String) :
    ∀ (fuel cp pages : Nat) (st st2 : NOAAState α) (reqs : List Request),
      pageLoop t ws we sid fuel cp pages st = Outcome.ok st2 reqs →
      st2.results = st.results ++ respRecords t reqs ∧
      ∀ r ∈ reqs, ∃ n, r = pageReq ws we sid n := by
  intro fuel
  induction fuel with
  | zero =>
    intro cp pages st st2 reqs h
    rw [pageLoop_zero] at h
    by_cases hcp : cp < pages
    · rw [if_pos hcp] at h
      cases h
    · rw [if_neg hcp] at h
      cases h
      constructor
      · simp [respRecords]
      · intro r hr
        cases hr
  | succ f ih =>
    intro cp pages st st2 reqs h
    by_cases hcp : cp < pages
    · rcases hrr : request_result_page t dataUrl st none (some ws) (some we)
          (some (cp + 1)) (some "GHCND") none none (some sid) none none with he | rp
      · have e : pageLoop t ws we sid (f + 1) cp pages st = Outcome.exn := by
          rw [pageLoop_succ, if_pos hcp, hrr]
        rw [e] at h
        cases h
      · obtain ⟨ret, stx⟩ := rp
        obtain ⟨rc2, rpp2, cur2, pg2, res2⟩ := stx
        have hcontrib := request_result_page_results t dataUrl st none (some ws) (some we)
          (some (cp + 1)) (some "GHCND") none none (some sid) none none ret
          ⟨rc2, rpp2, cur2, pg2, res2⟩ hrr
        rw [show buildRequest dataUrl none (some ws) (some we) (some (cp + 1))
          (some "GHCND") none none (some sid) none none = pageReq ws we sid (cp + 1)
          from rfl] at hcontrib
        rcases hcur : cur2 with - | c
        · subst hcur
          have e : pageLoop t ws we sid (f + 1) cp pages st =
              Outcome.ok ⟨rc2, rpp2, none, pg2, res2⟩ [pageReq ws we sid (cp + 1)] := by
            rw [pageLoop_succ, if_pos hcp, hrr]
          rw [e] at h
          cases h
          constructor
          · simpa [respRecords] using hcontrib
          · intro r hr
            simp only [List.mem_singleton] at hr
            subst hr
            exact ⟨cp + 1, rfl⟩
        · subst hcur
          rcases hpg : pg2 with - | p
          · subst hpg
            have e : pageLoop t ws we sid (f + 1) cp pages st =
                Outcome.ok ⟨rc2, rpp2, some c, none, res2⟩ [pageReq ws we sid (cp + 1)] := by
              rw [pageLoop_succ, if_pos hcp, hrr]
            rw [e] at h
            cases h
            constructor
            · simpa [respRecords] using hcontrib
            · intro r hr
              simp only [List.mem_singleton] at hr
              subst hr
              exact ⟨cp + 1, rfl⟩
          · subst hpg
            have e := pageLoop_step_ok t ws we sid f cp pages st ret rc2 rpp2 c p res2
              hcp hrr
            rw [e] at h
            cases hout : pageLoop t ws we sid f c p ⟨rc2, rpp2, some c, some p, res2⟩ with
            | ok st3 reqs3 =>
              rw [hout] at h
              simp at h
              obtain ⟨h1, h2⟩ := h
              obtain ⟨hres3, hreqs3⟩ := ih c p ⟨rc2, rpp2, some c, some p, res2⟩ st3 reqs3 hout
              subst h1
              subst h2
              constructor
              · rw [hres3, hcontrib]
                simp [respRecords, List.append_assoc]
              · intro r hr
                rcases List.mem_cons.mp hr with hr | hr
                · subst hr
                  exact ⟨cp + 1, rfl⟩
                · exact hreqs3 r hr
            | exn =>
              rw [hout] at h
              simp at h
            | spin =>
              rw [hout] at h
              simp at h
    · have e : pageLoop t ws we sid (f + 1) cp pages st = Outcome.ok st [] := by
        rw [pageLoop_succ, if_neg hcp]
      rw [e] at h
      cases h
      constructor
      · simp [respRecords]
      · intro r hr
        cases hr

theorem windowLoop_inv {α : Type} (t : Request → Response α) (sid : String) (pfuel : Nat) :
    ∀ (wf : Nat) (s e d : Int) (st st2 : NOAAState α) (reqs : List Request),
      windowLoop t sid pfuel wf s e d st = Outcome.ok st2 reqs →
      st2.results = st.results ++ respRecords t reqs ∧
      ∀ r ∈ reqs, ∃ w ∈ windowsList wf s e d, ∃ n, r = pageReq w.1 w.2 sid n := by
  intro wf
  induction wf with
  | zero =>
    intro s e d st st2 reqs h
    rw [windowLoop_zero] at h
    by_cases hse : s ≤ e
    · rw [if_pos hse] at h
      cases h
    · rw [if_neg hse] at h
      cases h
      constructor
      · simp [respRecords]
      · intro r hr
        cases hr
  | succ wf ih =>
    intro s e d st st2 reqs h
    by_cases hse : s ≤ e
    · cases hpl : pageLoop t s (s + d - 1) sid pfuel 0 1 st with
      | ok stp reqsp =>
        cases hwl : windowLoop t sid pfuel wf (s + d) e d stp with
        | ok st3 reqs3 =>
          have e2 : windowLoop t sid pfuel (wf + 1) s e d st =
              Outcome.ok st3 (reqsp ++ reqs3) := by
            rw [windowLoop_succ, if_pos hse, hpl]
            show (match windowLoop t sid pfuel wf (s + d) e d stp with
              | Outcome.ok st3 reqs2 => Outcome.ok st3 (reqsp ++ reqs2)
              | x => x) = _
            rw [hwl]
          rw [e2] at h
          cases h
          obtain ⟨hres1, hreq1⟩ := pageLoop_inv t s (s + d - 1) sid pfuel 0 1 st stp reqsp hpl
          obtain ⟨hres2, hreq2⟩ := ih (s + d) e d stp _ _ hwl
          constructor
          · rw [hres2, hres1, respRecords_append, List.append_assoc]
          · intro r hr
            rcases List.mem_append.mp hr with hr | hr
            · obtain ⟨n, rfl⟩ := hreq1 r hr
              refine ⟨(s, s + d - 1), ?_, n, rfl⟩
              rw [windowsList, if_pos hse]
              exact List.mem_cons_self _ _
            · obtain ⟨w, hw, n, rfl⟩ := hreq2 r hr
              refine ⟨w, ?_, n, rfl⟩
              rw [windowsList, if_pos hse]
              exact List.mem_cons_of_mem _ hw
        | exn =>
          have e2 : windowLoop t sid pfuel (wf + 1) s e d st = Outcome.exn := by
            rw [windowLoop_succ, if_pos hse, hpl]
            show (match windowLoop t sid pfuel wf (s + d) e d stp with
              | Outcome.ok st3 reqs2 => Outcome.ok st3 (reqsp ++ reqs2)
              | x => x) = _
            rw [hwl]
          rw [e2] at h
          cases h
        | spin =>
          have e2 : windowLoop t sid pfuel (wf + 1) s e d st = Outcome.spin := by
            rw [windowLoop_succ, if_pos hse, hpl]
            show (match windowLoop t sid pfuel wf (s + d) e d stp with
              | Outcome.ok st3 reqs2 => Outcome.ok st3 (reqsp ++ reqs2)
              | x => x) = _
            rw [hwl]
          rw [e2] at h
          cases h
      | exn =>
        have e2 : windowLoop t sid pfuel (wf + 1) s e d st = Outcome.exn := by
          rw [windowLoop_succ, if_pos hse, hpl]
        rw [e2] at h
        cases h
      | spin =>
        have e2 : windowLoop t sid pfuel (wf + 1) s e d st = Outcome.spin := by
          rw [windowLoop_succ, if_pos hse, hpl]
        rw [e2] at h
        cases h
    · have e2 : windowLoop t sid pfuel (wf + 1) s e d st = Outcome.ok st [] := by
        rw [windowLoop_succ, if_neg hse]
      rw [e2] at h
      cases h
      constructor
      · simp [respRecords]
      · intro r hr
        cases hr

/-! ## C8: append-only accumulator -/

/-- C8: the accumulator is append-only: every successful `parse_response`
extends `_RESULTS` by exactly that response's records at the end, in arrival
order; and a completed `get_station_summary` run returns exactly the
concatenation, over the issued requests in window order then page order, of
each successful response's records. -/
theorem C8_append_only :
    (∀ (α : Type) (st : NOAAState α) (rd : RequestData α) (st2 : NOAAState α),
      parse_response st rd = Except.ok st2 →
      st2.results = st.results ++ rd.results.getD []) ∧
    (∀ (α : Type) (t : Request → Response α) (sid : String) (s e d : Int)
        (pf wf : Nat) (st2 : NOAAState α) (reqs : List Request),
      get_station_summary t sid s e d pf wf = Outcome.ok st2 reqs →
      st2.results = respRecords t reqs) := by
  constructor
  · intro α st rd st2 h
    exact (parse_response_ok st rd st2 h).2.2.2.2
  · intro α t sid s e d pf wf st2 reqs h
    have h2 := (windowLoop_inv t sid pf wf s e d initState st2 reqs h).1
    simpa [initState] using h2

/-- C8 witness: a concrete parse appends `[7]` to the existing `[5]`, and a
concrete one-window zero-record run returns exactly the records of its only
(empty) response. -/
theorem C8_witness :
    ((⟨some 0, some 0, some 0, some 0, [5, 7]⟩ : NOAAState Nat).results =
      (⟨none, none, none, none, [5]⟩ : NOAAState Nat).results ++
        (⟨none, some [7]⟩ : RequestData Nat).results.getD []) ∧
    ((⟨some 0, some 0, some 0, some 0, []⟩ : NOAAState Nat).results =
      respRecords tZero [pageReq 0 0 "S" 1]) :=
  ⟨C8_append_only.1 Nat ⟨none, none, none, none, [5]⟩ ⟨none, some [7]⟩
      ⟨some 0, some 0, some 0, some 0, [5, 7]⟩ rfl,
   C8_append_only.2 Nat tZero "S" 0 0 1 1 1 ⟨some 0, some 0, some 0, some 0, []⟩
      [pageReq 0 0 "S" 1] rfl⟩

/-! ## windowsList lemmas for the chunking claim -/

theorem windowsList_zero (s e d : Int) : windowsList 0 s e d = [] := rfl

theorem windowsList_succ (wf : Nat) (s e d : Int) :
    windowsList (wf + 1) s e d =
      if s ≤ e then (s, s + d - 1) :: windowsList wf (s + d) e d else [] := rfl

theorem windowsList_mem (d : Int) (hd : 0 < d) :
    ∀ (wf : Nat) (s e : Int), ∀ w ∈ windowsList wf s e d,
      s ≤ w.1 ∧ w.1 ≤ e ∧ w.2 = w.1 + d - 1 := by
  intro wf
  induction wf with
  | zero =>
    intro s e w hw
    rw [windowsList_zero] at hw
    cases hw
  | succ wf ih =>
    intro s e w hw
    rw [windowsList_succ] at hw
    by_cases hse : s ≤ e
    · rw [if_pos hse] at hw
      rcases List.mem_cons.mp hw with rfl | hw2
      · exact ⟨le_refl s, hse, rfl⟩
      · obtain ⟨h1, h2, h3⟩ := ih (s + d) e w hw2
        exact ⟨by omega, h2, h3⟩
    · rw [if_neg hse] at hw
      cases hw

theorem windowsList_chain (d : Int) :
    ∀ (wf : Nat) (s e : Int),
      List.Chain' (fun a b : Int × Int => a.2 + 1 = b.1) (windowsList wf s e d) := by
  intro wf
  induction wf with
  | zero =>
    intro s e
    rw [windowsList_zero]
    exact List.chain'_nil
  | succ wf ih =>
    intro s e
    rw [windowsList_succ]
    by_cases hse : s ≤ e
    · rw [if_pos hse]
      rw [List.chain'_cons']
      refine ⟨?_, ih (s + d) e⟩
      intro b hb
      cases wf with
      | zero =>
        rw [windowsList_zero] at hb
        simp at hb
      | succ wf2 =>
        rw [windowsList_succ] at hb
        by_cases hse2 : s + d ≤ e
        · rw [if_pos hse2] at hb
          simp at hb
          subst hb
          show s + d - 1 + 1 = s + d
          omega
        · rw [if_neg hse2] at hb
          simp at hb
    · rw [if_neg hse]
      exact List.chain'_nil

theorem windowsList_pairwise (d : Int) (hd : 0 < d) :
    ∀ (wf : Nat) (s e : Int),
      List.Pairwise (fun a b : Int × Int => a.2 < b.1) (windowsList wf s e d) := by
  intro wf
  induction wf with
  | zero =>
    intro s e
    rw [windowsList_zero]
    exact List.Pairwise.nil
  | succ wf ih =>
    intro s e
    rw [windowsList_succ]
    by_cases hse : s ≤ e
    · rw [if_pos hse]
      rw [List.pairwise_cons]
      refine ⟨?_, ih (s + d) e⟩
      intro b hb
      obtain ⟨h1, _, _⟩ := windowsList_mem d hd wf (s + d) e b hb
      show s + d - 1 < b.1
      omega
    · rw [if_neg hse]
      exact List.Pairwise.nil

theorem windowsList_cover (d : Int) (hd : 0 < d) :
    ∀ (wf : Nat) (s e : Int), (e + 1 - s).toNat ≤ wf →
      ∀ x : Int, s ≤ x → x ≤ e →
        ∃ w ∈ windowsList wf s e d, w.1 ≤ x ∧ x ≤ w.2 := by
  intro wf
  induction wf with
  | zero =>
    intro s e hf x hsx hxe
    omega
  | succ wf ih =>
    intro s e hf x hsx hxe
    have hse : s ≤ e := le_trans hsx hxe
    rw [windowsList_succ, if_pos hse]
    by_cases hx : x ≤ s + d - 1
    · exact ⟨(s, s + d - 1), List.mem_cons_self _ _, hsx, hx⟩
    · obtain ⟨w, hw, h1, h2⟩ := ih (s + d) e (by omega) x (by omega) hxe
      exact ⟨w, List.mem_cons_of_mem _ hw, h1, h2⟩

theorem windowsList_head (wf : Nat) (s e d : Int) (hse : s ≤ e) (hwf : 0 < wf) :
    (windowsList wf s e d).head? = some (s, s + d - 1) := by
  cases wf with
  | zero => omega
  | succ wf =>
    rw [windowsList_succ, if_pos hse]
    rfl

theorem getParam_pageReq_startdate (ws we : Int) (sid : String) (n : Nat) :
    getParam (pageReq ws we sid n) "startdate" = some (PVal.date ws) := rfl

theorem getParam_pageReq_enddate (ws we : Int) (sid : String) (n : Nat) :
    getParam (pageReq ws we sid n) "enddate" = some (PVal.date we) := rfl

/-! ## C1: window chunking -/

/-- C1 counterexample: with `start_date = end_date = 0` and `delta = 2`
days, the only window the loop issues is `[0, 1]` — its `enddate` parameter
is day `1`, one day past `end_date = 0`, because the code never clamps
`start_date + delta - 1 day` to `end_date`.  So the union of the issued
windows is not `[start_date, end_date]` and a window end exceeds
`end_date`, contrary to the claim. -/
theorem C1_counterexample :
    traceOf (get_station_summary tZero "S" 0 0 2 1 1) = [pageReq 0 1 "S" 1] ∧
    getParam (pageReq 0 1 "S" 1) "enddate" = some (PVal.date 1) ∧
    ¬ ((1 : Int) ≤ 0) :=
  ⟨rfl, rfl, by decide⟩

/-- C1 amended: for `start_date ≤ end_date` and positive `delta` (and fuel
covering the span) the windows walked by the loop are contiguous (each end
is one day before the next start), pairwise non-overlapping, start at
`start_date`, and cover every day of `[start_date, end_date]`; each window
is `[w, w + delta - 1]` for some `w ≤ end_date`, so the last window's end
may exceed `end_date` by up to `delta - 1` days (no clamping).  Every
request issued by a completed run carries the `startdate`/`enddate` pair of
one of these windows. -/
theorem C1_amended (s e d : Int) (wf : Nat) (hd : 0 < d) (hse : s ≤ e)
    (hf : (e + 1 - s).toNat ≤ wf) :
    List.Chain' (fun a b : Int × Int => a.2 + 1 = b.1) (windowsList wf s e d) ∧
    List.Pairwise (fun a b : Int × Int => a.2 < b.1) (windowsList wf s e d) ∧
    (windowsList wf s e d).head? = some (s, s + d - 1) ∧
    (∀ w ∈ windowsList wf s e d, s ≤ w.1 ∧ w.1 ≤ e ∧ w.2 = w.1 + d - 1) ∧
    (∀ x : Int, s ≤ x → x ≤ e → ∃ w ∈ windowsList wf s e d, w.1 ≤ x ∧ x ≤ w.2) ∧
    (∀ (α : Type) (t : Request → Response α) (sid : String) (pf : Nat)
        (st st2 : NOAAState α) (reqs : List Request),
      windowLoop t sid pf wf s e d st = Outcome.ok st2 reqs →
      ∀ r ∈ reqs, ∃ w ∈ windowsList wf s e d,
        getParam r "startdate" = some (PVal.date w.1) ∧
        getParam r "enddate" = some (PVal.date w.2)) := by
  refine ⟨windowsList_chain d wf s e, windowsList_pairwise d hd wf s e,
    windowsList_head wf s e d hse (by omega), windowsList_mem d hd wf s e,
    windowsList_cover d hd wf s e hf, ?_⟩
  intro α t sid pf st st2 reqs h r hr
  obtain ⟨w, hw, n, rfl⟩ := (windowLoop_inv t sid pf wf s e d st st2 reqs h).2 r hr
  exact ⟨w, hw, getParam_pageReq_startdate w.1 w.2 sid n,
    getParam_pageReq_enddate w.1 w.2 sid n⟩

/-- C1 witness: the amended chunking properties evaluated on the one-day
span `[0, 0]` with `delta = 1`, together with the linking conjunct applied
to a concrete completed run. -/
theorem C1_witness :
    List.Chain' (fun a b : Int × Int => a.2 + 1 = b.1) (windowsList 1 0 0 1) ∧
    List.Pairwise (fun a b : Int × Int => a.2 < b.1) (windowsList 1 0 0 1) ∧
    (windowsList 1 0 0 1).head? = some (0, 0 + 1 - 1) ∧
    (∀ w ∈ windowsList 1 0 0 1, 0 ≤ w.1 ∧ w.1 ≤ 0 ∧ w.2 = w.1 + 1 - 1) ∧
    (∀ x : Int, 0 ≤ x → x ≤ 0 → ∃ w ∈ windowsList 1 0 0 1, w.1 ≤ x ∧ x ≤ w.2) ∧
    (∀ (α : Type) (t : Request → Response α) (sid : String) (pf : Nat)
        (st st2 : NOAAState α) (reqs : List Request),
      windowLoop t sid pf 1 0 0 1 st = Outcome.ok st2 reqs →
      ∀ r ∈ reqs, ∃ w ∈ windowsList 1 0 0 1,
        getParam r "startdate" = some (PVal.date w.1) ∧
        getParam r "enddate" = some (PVal.date w.2)) :=
  C1_amended 0 0 1 1 (by decide) (by decide) (by decide)

/-! ## C10: truthiness-gated query parameters -/

theorem lookupParam_condParam_ne (name n : String) (c : Bool) (v : PVal)
    (h : n ≠ name) : lookupParam name (condParam n c v) = none := by
  cases c <;> simp [condParam, lookupParam, h]

theorem lookupParam_chunk (name n : String) (c : Bool) (v : PVal)
    (rest : List (String × PVal)) :
    lookupParam name (condParam n c v ++ rest) =
      if c then (if n = name then some v else lookupParam name rest)
      else lookupParam name rest := by
  cases c <;> simp [condParam, lookupParam]

/-- C10: every optional argument of `request_result_page` is forwarded into
the issued query exactly when it is Python-truthy: `page = 0` and
empty-string filters (including the `default` URL suffix) produce a request
identical to the one with the argument absent, and each optional parameter
key occurs in the issued request precisely when its argument is truthy,
while the fixed `units` and `limit` parameters are always present. -/
theorem C10_truthy_forwarding (url : String) (default : Option String)
    (sd ed : Option Int) (pg : Option Nat) (ds dt loc stn lc dc : Option String) :
    (buildRequest url default sd ed (some 0) ds dt loc stn lc dc =
      buildRequest url default sd ed none ds dt loc stn lc dc) ∧
    (buildRequest url (some "") sd ed pg ds dt loc stn lc dc =
      buildRequest url none sd ed pg ds dt loc stn lc dc) ∧
    (buildRequest url default sd ed pg (some "") dt loc stn lc dc =
      buildRequest url default sd ed pg none dt loc stn lc dc) ∧
    (buildRequest url default sd ed pg ds (some "") loc stn lc dc =
      buildRequest url default sd ed pg ds none loc stn lc dc) ∧
    (buildRequest url default sd ed pg ds dt (some "") stn lc dc =
      buildRequest url default sd ed pg ds dt none stn lc dc) ∧
    (buildRequest url default sd ed pg ds dt loc (some "") lc dc =
      buildRequest url default sd ed pg ds dt loc none lc dc) ∧
    (buildRequest url default sd ed pg ds dt loc stn (some "") dc =
      buildRequest url default sd ed pg ds dt loc stn none dc) ∧
    (buildRequest url default sd ed pg ds dt loc stn lc (some "") =
      buildRequest url default sd ed pg ds dt loc stn lc none) ∧
    hasParam (buildRequest url default sd ed pg ds dt loc stn lc dc) "units" = true ∧
    hasParam (buildRequest url default sd ed pg ds dt loc stn lc dc) "limit" = true ∧
    hasParam (buildRequest url default sd ed pg ds dt loc stn lc dc) "offset" = truthyNat pg ∧
    hasParam (buildRequest url default sd ed pg ds dt loc stn lc dc) "datatypeid" = truthyStr dt ∧
    hasParam (buildRequest url default sd ed pg ds dt loc stn lc dc) "startdate" = truthyDate sd ∧
    hasParam (buildRequest url default sd ed pg ds dt loc stn lc dc) "enddate" = truthyDate ed ∧
    hasParam (buildRequest url default sd ed pg ds dt loc stn lc dc) "datasetid" = truthyStr ds ∧
    hasParam (buildRequest url default sd ed pg ds dt loc stn lc dc) "locationid" = truthyStr loc ∧
    hasParam (buildRequest url default sd ed pg ds dt loc stn lc dc) "stationid" = truthyStr stn ∧
    hasParam (buildRequest url default sd ed pg ds dt loc stn lc dc) "locationcategoryid" = truthyStr lc ∧
    hasParam (buildRequest url default sd ed pg ds dt loc stn lc dc) "datacategoryid" = truthyStr dc := by
  refine ⟨rfl, rfl, rfl, rfl, rfl, rfl, rfl, rfl, ?_, ?_, ?_, ?_, ?_, ?_, ?_, ?_, ?_, ?_, ?_⟩
  · simp [hasParam, buildRequest, lookupParam]
  · simp [hasParam, buildRequest, lookupParam]
  · cases h : truthyNat pg <;>
      simp [hasParam, buildRequest, List.append_assoc, lookupParam, lookupParam_chunk, lookupParam_condParam_ne, h]
  · cases h : truthyStr dt <;>
      simp [hasParam, buildRequest, List.append_assoc, lookupParam, lookupParam_chunk, lookupParam_condParam_ne, h]
  · cases h : truthyDate sd <;>
      simp [hasParam, buildRequest, List.append_assoc, lookupParam, lookupParam_chunk, lookupParam_condParam_ne, h]
  · cases h : truthyDate ed <;>
      simp [hasParam, buildRequest, List.append_assoc, lookupParam, lookupParam_chunk, lookupParam_condParam_ne, h]
  · cases h : truthyStr ds <;>
      simp [hasParam, buildRequest, List.append_assoc, lookupParam, lookupParam_chunk, lookupParam_condParam_ne, h]
  · cases h : truthyStr loc <;>
      simp [hasParam, buildRequest, List.append_assoc, lookupParam, lookupParam_chunk, lookupParam_condParam_ne, h]
  · cases h : truthyStr stn <;>
      simp [hasParam, buildRequest, List.append_assoc, lookupParam, lookupParam_chunk, lookupParam_condParam_ne, h]
  · cases h : truthyStr lc <;>
      simp [hasParam, buildRequest, List.append_assoc, lookupParam, lookupParam_chunk, lookupParam_condParam_ne, h]
  · cases h : truthyStr dc <;>
      simp [hasParam, buildRequest, List.append_assoc, lookupParam, lookupParam_chunk, lookupParam_condParam_ne, h]
